import Mathlib

/-!
Shallow embedding of `src/main.py`: a FastAPI service exposing CRUD over
`categories` and `blocks` in a SQLite file, with an audit log table `logs`
and a process-level log stream.

Modelling choices, each tied to the source:
* The persisted SQLite state is a `Store`: the three tables plus the
  AUTOINCREMENT counters of `categories` and `blocks` (SQLite AUTOINCREMENT
  never reuses an id, so a counter is the faithful model of `lastrowid`).
  The process-wide `logging` stream is the `stream` field.
* Log rows carry `level` and `message`; the store-assigned `id` and
  `created_at` timestamp of the `logs` table are not modelled (no claim
  depends on them); `ORDER BY created_at DESC` is modelled as reverse
  insertion order.
* Responses are JSON objects/arrays (`JBody`) paired with the HTTP status.
  None of the route decorators sets `status_code`, so FastAPI returns 200
  on every path that returns normally.
* A Python exception that escapes a handler is `Except.error st` where
  `st` is the persisted state at the point of the raise (FastAPI then
  produces a generic 500, outside the handler).  Two sources of exceptions
  are modelled: a failing INSERT into `logs` (the `logFails` fault flag,
  `log_to_db` has no try/except) and the uncaught `sqlite3.IntegrityError`
  of `update_category` when the new name collides with another row's
  UNIQUE name.  `add_category` catches its own IntegrityError.
* SQLite does not enforce the FOREIGN KEY on `blocks` (foreign_keys is off
  by default), so block writes never raise.
-/

/-- A row of the `categories` table: `id INTEGER PRIMARY KEY AUTOINCREMENT,
name TEXT UNIQUE NOT NULL`. -/
structure CategoryRow where
  id : Int
  name : String
deriving DecidableEq, Repr

/-- A row of the `blocks` table: `id INTEGER PRIMARY KEY AUTOINCREMENT,
category_id INTEGER, title TEXT, content TEXT`. -/
structure BlockRow where
  id : Int
  category_id : Int
  title : String
  content : String
deriving DecidableEq, Repr

/-- A row of the `logs` table (store-assigned `id` and `created_at` not
modelled). -/
structure LogRow where
  level : String
  message : String
deriving DecidableEq, Repr

/-- The persisted database file plus the process-level log stream. -/
structure Store where
  categories : List CategoryRow
  blocks : List BlockRow
  logs : List LogRow
  stream : List LogRow
  nextCategoryId : Int
  nextBlockId : Int
deriving DecidableEq, Repr

/-- JSON scalar values appearing in this service's responses. -/
inductive JVal where
  | s : String → JVal
  | n : Int → JVal
deriving DecidableEq, Repr

/-- A JSON object, in Python dict insertion order. -/
abbrev JObj := List (String × JVal)

/-- A response body: a single object or an array of objects. -/
inductive JBody where
  | obj : JObj → JBody
  | arr : List JObj → JBody
deriving DecidableEq, Repr

/-- An HTTP response: status code and JSON body. -/
structure HResp where
  status : Nat
  body : JBody
deriving DecidableEq, Repr

/-- A soft-error response: a (single-object) body carrying an `error` key. -/
def JBody.hasError : JBody → Bool
  | .obj o => o.any (fun kv => kv.1 = "error")
  | .arr _ => false

/-- Result of one handler invocation: `ok (response, state)` for a normal
return, `error st` for a Python exception escaping the handler with
persisted state `st` (FastAPI's generic server error). -/
abbrev HandlerResult := Except Store (HResp × Store)

/-- `log_to_db` (main.py:31): `INSERT INTO logs (level, message)` + commit,
with no exception handling; `logFails` injects the failure of this insert. -/
def log_to_db (logFails : Bool) (st : Store) (level message : String) :
    Except Store Store :=
  if logFails then .error st
  else .ok { st with logs := st.logs ++ [⟨level, message⟩] }

/-- The level routing of `app_log` (main.py:41-48): info/warning/error go to
the matching stream severity, anything else to debug. -/
def routeLevel (level : String) : String :=
  if level = "info" then "info"
  else if level = "warning" then "warning"
  else if level = "error" then "error"
  else "debug"

/-- `app_log` (main.py:40): writes to the process log stream (routed by
level), then inserts into the `logs` table.  The stream write precedes the
DB write, so a DB-write failure escapes with the stream entry already
emitted. -/
def app_log (logFails : Bool) (st : Store) (level message : String) :
    Except Store Store :=
  log_to_db logFails
    { st with stream := st.stream ++ [⟨routeLevel level, message⟩] }
    level message

/-- Common tail of every handler path: `app_log(level, message)` followed by
`return body` (status 200, FastAPI default). -/
def reply (logFails : Bool) (st : Store) (level message : String)
    (body : JBody) : HandlerResult :=
  (app_log logFails st level message).map (fun st' => (⟨200, body⟩, st'))

/-- The rows of `SELECT id, name FROM categories`. -/
def categoriesRows (st : Store) : List JObj :=
  st.categories.map (fun c => [("id", JVal.n c.id), ("name", JVal.s c.name)])

/-- `get_categories` (main.py:87). -/
def get_categories (logFails : Bool) (st : Store) : HandlerResult :=
  reply logFails st "info" "Tüm kategoriler getirildi"
    (.arr (categoriesRows st))

/-- `get_category` (main.py:96): `fetchone` on `WHERE id = ?`. -/
def get_category (logFails : Bool) (st : Store) (category_id : Int) :
    HandlerResult :=
  match st.categories.find? (fun c => c.id = category_id) with
  | some row =>
      reply logFails st "info" (s!"Kategori getirildi: id={category_id}")
        (.obj [("id", JVal.n row.id), ("name", JVal.s row.name)])
  | none =>
      reply logFails st "warning"
        (s!"Kategori bulunamadı: id={category_id}")
        (.obj [("error", JVal.s (s!"Category {category_id} not found"))])

/-- `add_category` (main.py:108): the INSERT raises IntegrityError exactly
when the UNIQUE name already exists; that exception is caught and turned
into the conflict body. -/
def add_category (logFails : Bool) (st : Store) (name : String) :
    HandlerResult :=
  if st.categories.any (fun c => c.name = name) then
    reply logFails st "warning" (s!"Kategori zaten mevcut: {name}")
      (.obj [("error", JVal.s "Bu kategori zaten mevcut")])
  else
    let new_id := st.nextCategoryId
    let st1 := { st with
      categories := st.categories ++ [⟨new_id, name⟩],
      nextCategoryId := new_id + 1 }
    reply logFails st1 "info" (s!"Kategori eklendi: {name} (id={new_id})")
      (.obj [("id", JVal.n new_id), ("name", JVal.s name)])

/-- `update_category` (main.py:122).  The UPDATE raises an uncaught
IntegrityError when a row matches the id and another row already holds the
new UNIQUE name (the `with` block then rolls back, leaving the store
unchanged); with no matching row `rowcount == 0` yields the not-found body. -/
def update_category (logFails : Bool) (st : Store) (category_id : Int)
    (name : String) : HandlerResult :=
  if st.categories.any (fun c => c.id = category_id) then
    if st.categories.any (fun c => ¬ c.id = category_id ∧ c.name = name) then
      .error st
    else
      let updated := st.categories.map (fun c =>
        if c.id = category_id then { c with name := name } else c)
      let st1 := { st with categories := updated }
      reply logFails st1 "info"
        (s!"Kategori güncellendi: id={category_id}, yeni ad={name}")
        (.obj [("id", JVal.n category_id), ("name", JVal.s name)])
  else
    reply logFails st "warning"
      (s!"Güncellenmek istenen kategori bulunamadı: id={category_id}")
      (.obj [("error", JVal.s (s!"Category {category_id} not found"))])

/-- `delete_category` (main.py:134): plain DELETE by id; no cascade and no
foreign-key check ever touches `blocks`. -/
def delete_category (logFails : Bool) (st : Store) (category_id : Int) :
    HandlerResult :=
  if st.categories.any (fun c => c.id = category_id) then
    let st1 := { st with categories :=
      st.categories.filter (fun c => ¬ c.id = category_id) }
    reply logFails st1 "info" (s!"Kategori silindi: id={category_id}")
      (.obj [("message", JVal.s (s!"Category {category_id} deleted"))])
  else
    reply logFails st "warning"
      (s!"Silinmek istenen kategori bulunamadı: id={category_id}")
      (.obj [("error", JVal.s (s!"Category {category_id} not found"))])

/-- The rows of the inner join `FROM blocks b JOIN categories c ON
b.category_id = c.id` (main.py:155-159): blocks in rowid order, each paired
with every matching category. -/
def blocksJoin (st : Store) : List JObj :=
  st.blocks.flatMap (fun b =>
    (st.categories.filter (fun c => c.id = b.category_id)).map (fun c =>
      [("id", JVal.n b.id), ("category_id", JVal.n b.category_id),
       ("title", JVal.s b.title), ("content", JVal.s b.content),
       ("category_name", JVal.s c.name)]))

/-- `get_blocks` (main.py:151). -/
def get_blocks (logFails : Bool) (st : Store) : HandlerResult :=
  reply logFails st "info" "Tüm bloklar getirildi" (.arr (blocksJoin st))

/-- `add_block` (main.py:164): existence check on the category by a SELECT,
then INSERT (the FOREIGN KEY is not enforced by SQLite, so the insert never
raises). -/
def add_block (logFails : Bool) (st : Store) (category_id : Int)
    (title content : String) : HandlerResult :=
  if st.categories.any (fun c => c.id = category_id) then
    let new_id := st.nextBlockId
    let st1 := { st with
      blocks := st.blocks ++ [⟨new_id, category_id, title, content⟩],
      nextBlockId := new_id + 1 }
    reply logFails st1 "info"
      (s!"Blok eklendi: id={new_id}, kategori={category_id}, başlık={title}, içerik={content}")
      (.obj [("id", JVal.n new_id), ("category_id", JVal.n category_id),
             ("title", JVal.s title), ("content", JVal.s content)])
  else
    reply logFails st "warning"
      (s!"Geçersiz kategori id ile blok ekleme denemesi: {category_id}")
      (.obj [("error", JVal.s "Geçersiz kategori id")])

/-- `update_block` (main.py:188): unconditional overwrite by id, no
re-validation of `category_id`. -/
def update_block (logFails : Bool) (st : Store) (block_id : Int)
    (category_id : Int) (title content : String) : HandlerResult :=
  if st.blocks.any (fun b => b.id = block_id) then
    let updated := st.blocks.map (fun b =>
      if b.id = block_id then ⟨block_id, category_id, title, content⟩ else b)
    let st1 := { st with blocks := updated }
    reply logFails st1 "info"
      (s!"Blok güncellendi: id={block_id}, kategori={category_id}, başlık={title}, içerik={content}")
      (.obj [("id", JVal.n block_id), ("category_id", JVal.n category_id),
             ("title", JVal.s title), ("content", JVal.s content)])
  else
    reply logFails st "warning"
      (s!"Güncellenmek istenen blok bulunamadı: id={block_id}")
      (.obj [("error", JVal.s (s!"Block {block_id} not found"))])

/-- `delete_block` (main.py:208). -/
def delete_block (logFails : Bool) (st : Store) (block_id : Int) :
    HandlerResult :=
  if st.blocks.any (fun b => b.id = block_id) then
    let remaining := st.blocks.filter (fun b => ¬ b.id = block_id)
    let st1 := { st with blocks := remaining }
    reply logFails st1 "info" (s!"Blok silindi: id={block_id}")
      (.obj [("message", JVal.s (s!"Block {block_id} deleted"))])
  else
    reply logFails st "warning"
      (s!"Silinmek istenen blok bulunamadı: id={block_id}")
      (.obj [("error", JVal.s (s!"Block {block_id} not found"))])

/-- The rows of `SELECT ... FROM logs ORDER BY created_at DESC`, newest
first (store-assigned `id`/`created_at` columns not modelled). -/
def logsRows (st : Store) : List JObj :=
  st.logs.reverse.map (fun e =>
    [("level", JVal.s e.level), ("message", JVal.s e.message)])

/-- `get_logs` (main.py:224): the only handler that does not call
`app_log`. -/
def get_logs (_logFails : Bool) (st : Store) : HandlerResult :=
  .ok (⟨200, .arr (logsRows st)⟩, st)

/-- One HTTP operation of the surface (method+path+body). -/
inductive Op where
  | getCategories
  | getCategory (id : Int)
  | addCategory (name : String)
  | updateCategory (id : Int) (name : String)
  | deleteCategory (id : Int)
  | getBlocks
  | addBlock (category_id : Int) (title : String) (content : String)
  | updateBlock (id : Int) (category_id : Int) (title : String)
      (content : String)
  | deleteBlock (id : Int)
  | getLogs
deriving DecidableEq, Repr

/-- Dispatch of an operation to its handler. -/
def runOp (logFails : Bool) (op : Op) (st : Store) : HandlerResult :=
  match op with
  | .getCategories => get_categories logFails st
  | .getCategory id => get_category logFails st id
  | .addCategory name => add_category logFails st name
  | .updateCategory id name => update_category logFails st id name
  | .deleteCategory id => delete_category logFails st id
  | .getBlocks => get_blocks logFails st
  | .addBlock cid title content => add_block logFails st cid title content
  | .updateBlock id cid title content =>
      update_block logFails st id cid title content
  | .deleteBlock id => delete_block logFails st id
  | .getLogs => get_logs logFails st

/-- The operations that mutate a table other than `logs`. -/
def Op.isMutating : Op → Bool
  | .addCategory _ | .updateCategory _ _ | .deleteCategory _
  | .addBlock _ _ _ | .updateBlock _ _ _ _ | .deleteBlock _ => true
  | _ => false

-- Basic computation lemmas about the logging tail shared by all handlers.

theorem reply_ok (st : Store) (level message : String) (body : JBody) :
    reply false st level message body =
      .ok (⟨200, body⟩,
        { st with
          stream := st.stream ++ [⟨routeLevel level, message⟩],
          logs := st.logs ++ [⟨level, message⟩] }) := rfl

theorem reply_err (st : Store) (level message : String) (body : JBody) :
    reply true st level message body =
      .error { st with
        stream := st.stream ++ [⟨routeLevel level, message⟩] } := rfl

/-- **C1.** For every store state and every name that already exists in the
categories table, `add_category` returns the conflict body
`{"error": "Bu kategori zaten mevcut"}` with status 200, does not raise,
inserts no second row, and the count returned by `get_categories` is
unchanged. -/
theorem addCategory_conflict (st : Store) (name : String)
    (h : st.categories.any (fun c => c.name = name) = true) :
    ∃ st', add_category false st name =
        .ok (⟨200, .obj [("error", JVal.s "Bu kategori zaten mevcut")]⟩, st')
      ∧ st'.categories = st.categories
      ∧ (categoriesRows st').length = (categoriesRows st).length := by
  unfold add_category
  rw [if_pos h, reply_ok]
  exact ⟨_, rfl, rfl, rfl⟩

theorem addCategory_conflict_witness :
    ∃ st', add_category false ⟨[⟨1, "Recipes"⟩], [], [], [], 2, 1⟩ "Recipes" =
        .ok (⟨200, .obj [("error", JVal.s "Bu kategori zaten mevcut")]⟩, st')
      ∧ st'.categories = (⟨[⟨1, "Recipes"⟩], [], [], [], 2, 1⟩ : Store).categories
      ∧ (categoriesRows st').length =
          (categoriesRows ⟨[⟨1, "Recipes"⟩], [], [], [], 2, 1⟩).length :=
  addCategory_conflict ⟨[⟨1, "Recipes"⟩], [], [], [], 2, 1⟩ "Recipes" (by decide)

/-- **C2 (counterexample).** Store with category 1 "Recipes" and one block
referencing it: deleting the category succeeds and leaves the block row in
the `blocks` table, but `get_blocks` then returns the empty array — the
inner join excludes the dangling block, so GET /blocks does **not** still
return it as the claim states. -/
theorem deleteCategory_join_counterexample :
    delete_category false ⟨[⟨1, "Recipes"⟩], [⟨1, 1, "T", "C"⟩], [], [], 2, 2⟩ 1 =
      .ok (⟨200, .obj [("message", JVal.s "Category 1 deleted")]⟩,
        ⟨[], [⟨1, 1, "T", "C"⟩], [⟨"info", "Kategori silindi: id=1"⟩],
         [⟨"info", "Kategori silindi: id=1"⟩], 2, 2⟩)
    ∧ get_blocks false
        ⟨[], [⟨1, 1, "T", "C"⟩], [⟨"info", "Kategori silindi: id=1"⟩],
         [⟨"info", "Kategori silindi: id=1"⟩], 2, 2⟩ =
      .ok (⟨200, .arr []⟩,
        ⟨[], [⟨1, 1, "T", "C"⟩],
         [⟨"info", "Kategori silindi: id=1"⟩, ⟨"info", "Tüm bloklar getirildi"⟩],
         [⟨"info", "Kategori silindi: id=1"⟩, ⟨"info", "Tüm bloklar getirildi"⟩],
         2, 2⟩) := by
  constructor <;> rfl

/-- **C2 (amended).** After deleting a category that has dependent blocks,
the dependent rows remain unchanged in the `blocks` table with their
original `category_id` (no cascade), but the inner join of `get_blocks`
excludes them: no joined row references the deleted category id. -/
theorem deleteCategory_orphan_excluded (st : Store) (cid : Int)
    (h : st.categories.any (fun c => c.id = cid) = true) :
    ∃ resp st', delete_category false st cid = .ok (resp, st')
      ∧ st'.blocks = st.blocks
      ∧ ∀ o ∈ blocksJoin st', ("category_id", JVal.n cid) ∉ o := by
  unfold delete_category
  rw [if_pos h, reply_ok]
  refine ⟨_, _, rfl, rfl, ?_⟩
  intro o ho hmem
  simp only [blocksJoin, List.mem_flatMap, List.mem_map] at ho
  obtain ⟨b, _, c, hc, rfl⟩ := ho
  rw [List.mem_filter] at hc
  obtain ⟨hc1, hc2⟩ := hc
  rw [List.mem_filter] at hc1
  simp only [decide_eq_true_eq] at hc1 hc2
  simp only [List.mem_cons, List.not_mem_nil, or_false, Prod.mk.injEq,
    JVal.n.injEq, String.reduceEq, false_and, false_or, or_self] at hmem
  exact hc1.2 (hc2.trans hmem.2.symm)

theorem deleteCategory_orphan_excluded_witness :
    ∃ resp st',
      delete_category false ⟨[⟨1, "Recipes"⟩], [⟨1, 1, "T", "C"⟩], [], [], 2, 2⟩ 1 =
          .ok (resp, st')
        ∧ st'.blocks = (⟨[⟨1, "Recipes"⟩], [⟨1, 1, "T", "C"⟩], [], [], 2, 2⟩ : Store).blocks
        ∧ ∀ o ∈ blocksJoin st', ("category_id", JVal.n 1) ∉ o :=
  deleteCategory_orphan_excluded
    ⟨[⟨1, "Recipes"⟩], [⟨1, 1, "T", "C"⟩], [], [], 2, 2⟩ 1 (by decide)

/-- **C3 (counterexample).** With the log-table insert failing,
`add_category` on a fresh name does not return its normal success response:
the uncaught exception escapes the handler (the category insert itself,
already committed, persists, and the stream entry was emitted, but no
normal response is produced). -/
theorem logFailure_fails_addCategory_counterexample :
    runOp true (Op.addCategory "x") ⟨[], [], [], [], 1, 1⟩ =
      .error ⟨[⟨1, "x"⟩], [], [],
        [⟨"info", "Kategori eklendi: x (id=1)"⟩], 2, 1⟩ := by
  rfl

/-- **C3 (amended).** A failure of the persisted log write is not caught:
every operation other than `get_logs` then fails with an unhandled
exception instead of returning its normal success or soft-error response,
and the audit row is lost (`logs` unchanged) — the primary mutation that
committed before the logging call persists in the escaped state. -/
theorem logFailure_fails_operation (op : Op) (st : Store)
    (h : op ≠ Op.getLogs) :
    ∃ st', runOp true op st = Except.error st' ∧ st'.logs = st.logs := by
  cases op
  case getLogs => exact absurd rfl h
  all_goals
    simp only [runOp, get_categories, get_category, add_category,
      update_category, delete_category, get_blocks, add_block, update_block,
      delete_block]
  all_goals try split
  all_goals try split
  all_goals try simp only [reply_err]
  all_goals exact ⟨_, rfl, rfl⟩

theorem logFailure_fails_operation_witness :
    ∃ st', runOp true (Op.deleteBlock 5) ⟨[], [], [], [], 1, 1⟩ =
        Except.error st'
      ∧ st'.logs = (⟨[], [], [], [], 1, 1⟩ : Store).logs :=
  logFailure_fails_operation (Op.deleteBlock 5) ⟨[], [], [], [], 1, 1⟩
    (by decide)

/-- The outcome the spec calls NotFound: the handler returns status 200 with
body `{error: msg}` and leaves the `categories` and `blocks` tables
unchanged. -/
def notFoundOutcome (run : HandlerResult) (st : Store) (msg : String) : Prop :=
  ∃ st', run = .ok (⟨200, .obj [("error", JVal.s msg)]⟩, st')
    ∧ st'.categories = st.categories ∧ st'.blocks = st.blocks

/-- **C5.** For every id absent from the store, each of the existing
get/update/delete operations on categories and blocks (there is no
GET /blocks/{id} route) returns `{error: "<Entity> <id> not found"}` with
HTTP status 200 and leaves the stored rows of `categories` and `blocks`
unchanged (only the warning log row is appended). -/
theorem absent_id_not_found (st : Store) (id : Int) (name : String)
    (cid : Int) (title content : String)
    (hcat : ∀ c ∈ st.categories, c.id ≠ id)
    (hblk : ∀ b ∈ st.blocks, b.id ≠ id) :
    notFoundOutcome (get_category false st id) st (s!"Category {id} not found")
    ∧ notFoundOutcome (update_category false st id name) st
        (s!"Category {id} not found")
    ∧ notFoundOutcome (delete_category false st id) st
        (s!"Category {id} not found")
    ∧ notFoundOutcome (update_block false st id cid title content) st
        (s!"Block {id} not found")
    ∧ notFoundOutcome (delete_block false st id) st
        (s!"Block {id} not found") := by
  have hcs : st.categories.any (fun c => c.id = id) = false := by
    simp only [List.any_eq_false, decide_eq_true_eq]
    exact hcat
  have hbs : st.blocks.any (fun b => b.id = id) = false := by
    simp only [List.any_eq_false, decide_eq_true_eq]
    exact hblk
  have hf : st.categories.find? (fun c => c.id = id) = none := by
    rw [List.find?_eq_none]
    intro c hc
    simpa using hcat c hc
  refine ⟨?_, ?_, ?_, ?_, ?_⟩
  · unfold notFoundOutcome
    simp only [get_category, hf]
    rw [reply_ok]
    exact ⟨_, rfl, rfl, rfl⟩
  · unfold notFoundOutcome
    rw [update_category, if_neg (by simp [hcs]), reply_ok]
    exact ⟨_, rfl, rfl, rfl⟩
  · unfold notFoundOutcome
    rw [delete_category, if_neg (by simp [hcs]), reply_ok]
    exact ⟨_, rfl, rfl, rfl⟩
  · unfold notFoundOutcome
    rw [update_block, if_neg (by simp [hbs]), reply_ok]
    exact ⟨_, rfl, rfl, rfl⟩
  · unfold notFoundOutcome
    rw [delete_block, if_neg (by simp [hbs]), reply_ok]
    exact ⟨_, rfl, rfl, rfl⟩

theorem absent_id_not_found_witness :
    notFoundOutcome
        (get_category false ⟨[⟨1, "a"⟩], [⟨1, 1, "T", "C"⟩], [], [], 2, 2⟩ 99)
        ⟨[⟨1, "a"⟩], [⟨1, 1, "T", "C"⟩], [], [], 2, 2⟩ "Category 99 not found"
    ∧ notFoundOutcome
        (update_category false ⟨[⟨1, "a"⟩], [⟨1, 1, "T", "C"⟩], [], [], 2, 2⟩ 99 "x")
        ⟨[⟨1, "a"⟩], [⟨1, 1, "T", "C"⟩], [], [], 2, 2⟩ "Category 99 not found"
    ∧ notFoundOutcome
        (delete_category false ⟨[⟨1, "a"⟩], [⟨1, 1, "T", "C"⟩], [], [], 2, 2⟩ 99)
        ⟨[⟨1, "a"⟩], [⟨1, 1, "T", "C"⟩], [], [], 2, 2⟩ "Category 99 not found"
    ∧ notFoundOutcome
        (update_block false ⟨[⟨1, "a"⟩], [⟨1, 1, "T", "C"⟩], [], [], 2, 2⟩ 99 1 "t" "c")
        ⟨[⟨1, "a"⟩], [⟨1, 1, "T", "C"⟩], [], [], 2, 2⟩ "Block 99 not found"
    ∧ notFoundOutcome
        (delete_block false ⟨[⟨1, "a"⟩], [⟨1, 1, "T", "C"⟩], [], [], 2, 2⟩ 99)
        ⟨[⟨1, "a"⟩], [⟨1, 1, "T", "C"⟩], [], [], 2, 2⟩ "Block 99 not found" :=
  absent_id_not_found ⟨[⟨1, "a"⟩], [⟨1, 1, "T", "C"⟩], [], [], 2, 2⟩ 99 "x" 1
    "t" "c" (by decide) (by decide)

/-- **C6.** For every `category_id` not present in the categories table,
`add_block` returns the body `{error: "Geçersiz kategori id"}`, appends
exactly one warning log row, and leaves the `blocks` table untouched. -/
theorem addBlock_invalid_category (st : Store) (cid : Int)
    (title content : String) (h : ∀ c ∈ st.categories, c.id ≠ cid) :
    ∃ st', add_block false st cid title content =
        .ok (⟨200, .obj [("error", JVal.s "Geçersiz kategori id")]⟩, st')
      ∧ st'.blocks = st.blocks
      ∧ st'.logs = st.logs ++
          [⟨"warning", s!"Geçersiz kategori id ile blok ekleme denemesi: {cid}"⟩] := by
  have ha : st.categories.any (fun c => c.id = cid) = false := by
    simp only [List.any_eq_false, decide_eq_true_eq]
    exact h
  rw [add_block, if_neg (by simp [ha]), reply_ok]
  exact ⟨_, rfl, rfl, rfl⟩

theorem addBlock_invalid_category_witness :
    ∃ st', add_block false ⟨[⟨1, "a"⟩], [], [], [], 2, 1⟩ 42 "T" "C" =
        .ok (⟨200, .obj [("error", JVal.s "Geçersiz kategori id")]⟩, st')
      ∧ st'.blocks = (⟨[⟨1, "a"⟩], [], [], [], 2, 1⟩ : Store).blocks
      ∧ st'.logs = (⟨[⟨1, "a"⟩], [], [], [], 2, 1⟩ : Store).logs ++
          [⟨"warning", s!"Geçersiz kategori id ile blok ekleme denemesi: {(42 : Int)}"⟩] :=
  addBlock_invalid_category ⟨[⟨1, "a"⟩], [], [], [], 2, 1⟩ 42 "T" "C"
    (by decide)

/-- **C7.** Round-trip.  Part one: after a successful `add_category` (fresh
name; the AUTOINCREMENT id is fresh by the store invariant), `get_category`
on the returned id yields the same name.  Part two: after a successful
`add_block` for an existing category, the `get_blocks` join of the new
store contains the created block joined with that category's name. -/
theorem create_get_roundtrip (st : Store) (name : String) (cid : Int)
    (title content : String) :
    ((∀ c ∈ st.categories, c.name ≠ name) →
     (∀ c ∈ st.categories, c.id ≠ st.nextCategoryId) →
      ∃ st1, add_category false st name =
          .ok (⟨200, .obj [("id", JVal.n st.nextCategoryId),
                           ("name", JVal.s name)]⟩, st1)
        ∧ ∃ st2, get_category false st1 st.nextCategoryId =
            .ok (⟨200, .obj [("id", JVal.n st.nextCategoryId),
                             ("name", JVal.s name)]⟩, st2))
    ∧ (∀ c ∈ st.categories, c.id = cid →
        ∃ st1, add_block false st cid title content =
            .ok (⟨200, .obj [("id", JVal.n st.nextBlockId),
                             ("category_id", JVal.n cid),
                             ("title", JVal.s title),
                             ("content", JVal.s content)]⟩, st1)
          ∧ [("id", JVal.n st.nextBlockId), ("category_id", JVal.n cid),
             ("title", JVal.s title), ("content", JVal.s content),
             ("category_name", JVal.s c.name)] ∈ blocksJoin st1) := by
  constructor
  · intro hfresh hid
    have hn : st.categories.any (fun c => c.name = name) = false := by
      simp only [List.any_eq_false, decide_eq_true_eq]
      exact hfresh
    rw [add_category, if_neg (by simp [hn]), reply_ok]
    refine ⟨_, rfl, ?_⟩
    have hnone : st.categories.find?
        (fun c => c.id = st.nextCategoryId) = none := by
      rw [List.find?_eq_none]
      intro c hc
      simpa using hid c hc
    have hfind :
        ((st.categories ++ [(⟨st.nextCategoryId, name⟩ : CategoryRow)]).find?
          (fun c => c.id = st.nextCategoryId)) =
          some (⟨st.nextCategoryId, name⟩ : CategoryRow) := by
      rw [List.find?_append, hnone, Option.none_or]
      simp [List.find?_cons_of_pos]
    simp only [get_category, hfind]
    rw [reply_ok]
    exact ⟨_, rfl⟩
  · intro c hc hcid
    have ha : st.categories.any (fun x => x.id = cid) = true := by
      rw [List.any_eq_true]
      exact ⟨c, hc, by simp [hcid]⟩
    rw [add_block, if_pos ha, reply_ok]
    refine ⟨_, rfl, ?_⟩
    simp only [blocksJoin, List.mem_flatMap]
    refine ⟨⟨st.nextBlockId, cid, title, content⟩, by simp, ?_⟩
    rw [List.mem_map]
    refine ⟨c, ?_, rfl⟩
    rw [List.mem_filter]
    exact ⟨hc, by simp [hcid]⟩

theorem create_get_roundtrip_witness :
    (∃ st1, add_category false ⟨[⟨1, "Recipes"⟩], [], [], [], 2, 1⟩ "New" =
        .ok (⟨200, .obj [("id", JVal.n 2), ("name", JVal.s "New")]⟩, st1)
      ∧ ∃ st2, get_category false st1 2 =
          .ok (⟨200, .obj [("id", JVal.n 2), ("name", JVal.s "New")]⟩, st2))
    ∧ (∃ st1, add_block false ⟨[⟨1, "Recipes"⟩], [], [], [], 2, 1⟩ 1 "T" "C" =
        .ok (⟨200, .obj [("id", JVal.n 1), ("category_id", JVal.n 1),
                         ("title", JVal.s "T"), ("content", JVal.s "C")]⟩, st1)
      ∧ [("id", JVal.n 1), ("category_id", JVal.n 1), ("title", JVal.s "T"),
         ("content", JVal.s "C"), ("category_name", JVal.s "Recipes")] ∈
          blocksJoin st1) :=
  ⟨(create_get_roundtrip ⟨[⟨1, "Recipes"⟩], [], [], [], 2, 1⟩ "New" 1 "T" "C").1
      (by decide) (by decide),
   (create_get_roundtrip ⟨[⟨1, "Recipes"⟩], [], [], [], 2, 1⟩ "New" 1 "T" "C").2
      ⟨1, "Recipes"⟩ (by decide) rfl⟩

/-- Characterization of every handler outcome used by several theorems
below: a normal return has status 200 and — except for `get_logs` — appends
exactly one log row whose level is info or warning, warning exactly when
the body carries an `error` field; an escaped exception leaves the `logs`
table unchanged and appends at most one routed entry to the stream. -/
lemma runOp_shape (lf : Bool) (op : Op) (st : Store) :
    (∀ resp st', runOp lf op st = Except.ok (resp, st') →
      resp.status = 200 ∧
      ((op = Op.getLogs ∧ resp.body.hasError = false ∧ st' = st) ∨
       (∃ lvl m, (lvl = "info" ∨ lvl = "warning")
          ∧ st'.logs = st.logs ++ [⟨lvl, m⟩]
          ∧ st'.stream = st.stream ++ [⟨routeLevel lvl, m⟩]
          ∧ (resp.body.hasError = true ↔ lvl = "warning"))))
    ∧ (∀ st', runOp lf op st = Except.error st' →
        st'.logs = st.logs
        ∧ (st'.stream = st.stream ∨
           ∃ lvl m, (lvl = "info" ∨ lvl = "warning")
             ∧ st'.stream = st.stream ++ [⟨routeLevel lvl, m⟩])) := by
  constructor
  · intro resp st' heq
    cases lf <;> cases op <;>
      simp only [runOp, get_categories, get_category, add_category,
        update_category, delete_category, get_blocks, add_block,
        update_block, delete_block, get_logs] at heq
    all_goals (try split at heq)
    all_goals (try split at heq)
    all_goals
      simp only [reply_ok, reply_err, Except.ok.injEq, Prod.mk.injEq,
        reduceCtorEq] at heq
    all_goals obtain ⟨rfl, rfl⟩ := heq
    all_goals first
      | exact ⟨rfl, Or.inl ⟨rfl, rfl, rfl⟩⟩
      | exact ⟨rfl, Or.inr ⟨"info", _, Or.inl rfl, rfl, rfl,
          by simp [JBody.hasError]⟩⟩
      | exact ⟨rfl, Or.inr ⟨"warning", _, Or.inr rfl, rfl, rfl,
          by simp [JBody.hasError]⟩⟩
  · intro st' heq
    cases lf <;> cases op <;>
      simp only [runOp, get_categories, get_category, add_category,
        update_category, delete_category, get_blocks, add_block,
        update_block, delete_block, get_logs] at heq
    all_goals (try split at heq)
    all_goals (try split at heq)
    all_goals
      simp only [reply_ok, reply_err, Except.error.injEq,
        reduceCtorEq] at heq
    all_goals (try subst heq)
    all_goals first
      | exact ⟨rfl, Or.inl rfl⟩
      | exact ⟨rfl, Or.inr ⟨"info", _, Or.inl rfl, rfl⟩⟩
      | exact ⟨rfl, Or.inr ⟨"warning", _, Or.inr rfl, rfl⟩⟩

/-- **C4.** For every initial store, a normally-returning operation that is
mutating and succeeds (no error field) appends exactly one `logs` row with
level "info", and a rejected operation (its body carries an error field)
appends exactly one `logs` row with level "warning". -/
theorem mutation_logging (op : Op) (st : Store) (resp : HResp) (st' : Store)
    (h : runOp false op st = Except.ok (resp, st')) :
    (op.isMutating = true → resp.body.hasError = false →
      ∃ m, st'.logs = st.logs ++ [⟨"info", m⟩])
    ∧ (resp.body.hasError = true →
      ∃ m, st'.logs = st.logs ++ [⟨"warning", m⟩]) := by
  obtain ⟨-, hcase⟩ := (runOp_shape false op st).1 resp st' h
  cases hcase with
  | inl hgl =>
      obtain ⟨hop, hne, rfl⟩ := hgl
      constructor
      · intro hmut _
        rw [hop] at hmut
        simp [Op.isMutating] at hmut
      · intro herr
        rw [hne] at herr
        exact absurd herr (by decide)
  | inr hrest =>
      obtain ⟨lvl, m, hlv, hlogs, -, hiff⟩ := hrest
      cases hlv with
      | inl hi =>
          subst hi
          refine ⟨fun _ _ => ⟨m, hlogs⟩, fun herr => ?_⟩
          exact absurd (hiff.mp herr) (by decide)
      | inr hw =>
          subst hw
          refine ⟨fun _ hne => ?_, fun _ => ⟨m, hlogs⟩⟩
          exact absurd (hiff.mpr rfl) (by simp [hne])

theorem mutation_logging_witness :
    ((Op.addCategory "a").isMutating = true →
      JBody.hasError (JBody.obj [("id", JVal.n 1), ("name", JVal.s "a")]) = false →
      ∃ m, ([⟨"info", "Kategori eklendi: a (id=1)"⟩] : List LogRow) =
        ([] : List LogRow) ++ [⟨"info", m⟩])
    ∧ (JBody.hasError (JBody.obj [("id", JVal.n 1), ("name", JVal.s "a")]) = true →
      ∃ m, ([⟨"info", "Kategori eklendi: a (id=1)"⟩] : List LogRow) =
        ([] : List LogRow) ++ [⟨"warning", m⟩]) :=
  mutation_logging (Op.addCategory "a") ⟨[], [], [], [], 1, 1⟩
    ⟨200, .obj [("id", JVal.n 1), ("name", JVal.s "a")]⟩
    ⟨[⟨1, "a"⟩], [], [⟨"info", "Kategori eklendi: a (id=1)"⟩],
     [⟨"info", "Kategori eklendi: a (id=1)"⟩], 2, 1⟩ rfl

/-- **C8.** The `logs` table is append-only under every operation and every
outcome (normal return or escaped exception, log write failing or not), and
every operation other than `get_logs` that returns normally appends a log
row as a side effect (exactly one). -/
theorem logs_append_only (lf : Bool) (op : Op) (st : Store) :
    (∀ resp st', runOp lf op st = Except.ok (resp, st') →
      ∃ t, st'.logs = st.logs ++ t)
    ∧ (∀ st', runOp lf op st = Except.error st' → st'.logs = st.logs)
    ∧ (op ≠ Op.getLogs →
        ∀ resp st', runOp false op st = Except.ok (resp, st') →
          ∃ e, st'.logs = st.logs ++ [e]) := by
  refine ⟨?_, ?_, ?_⟩
  · intro resp st' h
    obtain ⟨-, hcase⟩ := (runOp_shape lf op st).1 resp st' h
    cases hcase with
    | inl hgl => exact ⟨[], by rw [hgl.2.2, List.append_nil]⟩
    | inr hr =>
        obtain ⟨lvl, m, -, hlogs, -, -⟩ := hr
        exact ⟨[⟨lvl, m⟩], hlogs⟩
  · intro st' h
    exact ((runOp_shape lf op st).2 st' h).1
  · intro hne resp st' h
    obtain ⟨-, hcase⟩ := (runOp_shape false op st).1 resp st' h
    cases hcase with
    | inl hgl => exact absurd hgl.1 hne
    | inr hr =>
        obtain ⟨lvl, m, -, hlogs, -, -⟩ := hr
        exact ⟨⟨lvl, m⟩, hlogs⟩

theorem logs_append_only_witness :
    (∃ t, (⟨[⟨1, "b"⟩], [], [⟨"info", "Kategori eklendi: b (id=1)"⟩],
           [⟨"info", "Kategori eklendi: b (id=1)"⟩], 2, 1⟩ : Store).logs =
      ([] : List LogRow) ++ t)
    ∧ (⟨[⟨1, "a"⟩, ⟨2, "b"⟩], [], [], [], 3, 1⟩ : Store).logs =
      (⟨[⟨1, "a"⟩, ⟨2, "b"⟩], [], [], [], 3, 1⟩ : Store).logs
    ∧ (∃ e, (⟨[⟨1, "b"⟩], [], [⟨"info", "Kategori eklendi: b (id=1)"⟩],
             [⟨"info", "Kategori eklendi: b (id=1)"⟩], 2, 1⟩ : Store).logs =
        ([] : List LogRow) ++ [e]) :=
  ⟨(logs_append_only false (Op.addCategory "b") ⟨[], [], [], [], 1, 1⟩).1
      ⟨200, .obj [("id", JVal.n 1), ("name", JVal.s "b")]⟩
      ⟨[⟨1, "b"⟩], [], [⟨"info", "Kategori eklendi: b (id=1)"⟩],
       [⟨"info", "Kategori eklendi: b (id=1)"⟩], 2, 1⟩ rfl,
   (logs_append_only false (Op.updateCategory 1 "b")
      ⟨[⟨1, "a"⟩, ⟨2, "b"⟩], [], [], [], 3, 1⟩).2.1
      ⟨[⟨1, "a"⟩, ⟨2, "b"⟩], [], [], [], 3, 1⟩ rfl,
   (logs_append_only false (Op.addCategory "b") ⟨[], [], [], [], 1, 1⟩).2.2
      (by decide)
      ⟨200, .obj [("id", JVal.n 1), ("name", JVal.s "b")]⟩
      ⟨[⟨1, "b"⟩], [], [⟨"info", "Kategori eklendi: b (id=1)"⟩],
       [⟨"info", "Kategori eklendi: b (id=1)"⟩], 2, 1⟩ rfl⟩

/-- **C9.** Every response a handler returns normally — success or
soft-error (not-found, conflict, referential violation) — carries the same
HTTP success status 200; no endpoint maps a business failure to a non-2xx
status. -/
theorem responses_status_200 (lf : Bool) (op : Op) (st : Store)
    (resp : HResp) (st' : Store)
    (h : runOp lf op st = Except.ok (resp, st')) :
    resp.status = 200 :=
  ((runOp_shape lf op st).1 resp st' h).1

theorem responses_status_200_witness :
    HResp.status ⟨200, .obj [("error", JVal.s "Category 7 not found")]⟩ = 200 :=
  responses_status_200 false (Op.getCategory 7) ⟨[], [], [], [], 1, 1⟩
    ⟨200, .obj [("error", JVal.s "Category 7 not found")]⟩
    ⟨[], [], [⟨"warning", "Kategori bulunamadı: id=7"⟩],
     [⟨"warning", "Kategori bulunamadı: id=7"⟩], 1, 1⟩ rfl

/-- **C10.** Every `logs` row persisted by an endpoint operation, and every
entry emitted on the process stream by one, has level exactly "info" or
"warning": no endpoint invokes the logger with "error" or "debug", so those
branches of the level-routing function are never taken. -/
theorem log_levels_info_or_warning (lf : Bool) (op : Op) (st : Store) :
    (∀ resp st', runOp lf op st = Except.ok (resp, st') →
      (∀ e ∈ st'.logs, e ∈ st.logs ∨ e.level = "info" ∨ e.level = "warning")
      ∧ (∀ e ∈ st'.stream,
          e ∈ st.stream ∨ e.level = "info" ∨ e.level = "warning"))
    ∧ (∀ st', runOp lf op st = Except.error st' →
      (∀ e ∈ st'.logs, e ∈ st.logs)
      ∧ (∀ e ∈ st'.stream,
          e ∈ st.stream ∨ e.level = "info" ∨ e.level = "warning")) := by
  constructor
  · intro resp st' h
    obtain ⟨-, hcase⟩ := (runOp_shape lf op st).1 resp st' h
    cases hcase with
    | inl hgl =>
        rw [hgl.2.2]
        exact ⟨fun e he => Or.inl he, fun e he => Or.inl he⟩
    | inr hr =>
        obtain ⟨lvl, m, hlv, hlogs, hstream, -⟩ := hr
        constructor
        · intro e he
          rw [hlogs, List.mem_append] at he
          cases he with
          | inl h1 => exact Or.inl h1
          | inr h2 =>
              rw [List.mem_singleton] at h2
              subst h2
              cases hlv with
              | inl h3 => subst h3; exact Or.inr (Or.inl rfl)
              | inr h3 => subst h3; exact Or.inr (Or.inr rfl)
        · intro e he
          rw [hstream, List.mem_append] at he
          cases he with
          | inl h1 => exact Or.inl h1
          | inr h2 =>
              rw [List.mem_singleton] at h2
              subst h2
              cases hlv with
              | inl h3 => subst h3; exact Or.inr (Or.inl rfl)
              | inr h3 => subst h3; exact Or.inr (Or.inr rfl)
  · intro st' h
    obtain ⟨hlogs, hstream⟩ := (runOp_shape lf op st).2 st' h
    refine ⟨fun e he => by rw [hlogs] at he; exact he, ?_⟩
    cases hstream with
    | inl h1 =>
        intro e he
        rw [h1] at he
        exact Or.inl he
    | inr h2 =>
        obtain ⟨lvl, m, hlv, hs⟩ := h2
        intro e he
        rw [hs, List.mem_append] at he
        cases he with
        | inl h1 => exact Or.inl h1
        | inr h3 =>
            rw [List.mem_singleton] at h3
            subst h3
            cases hlv with
            | inl h4 => subst h4; exact Or.inr (Or.inl rfl)
            | inr h4 => subst h4; exact Or.inr (Or.inr rfl)

theorem log_levels_info_or_warning_witness :
    ((∀ e ∈ (⟨[⟨1, "a"⟩], [], [⟨"info", "Kategori eklendi: a (id=1)"⟩],
              [⟨"info", "Kategori eklendi: a (id=1)"⟩], 2, 1⟩ : Store).logs,
        e ∈ ([] : List LogRow) ∨ e.level = "info" ∨ e.level = "warning")
     ∧ (∀ e ∈ (⟨[⟨1, "a"⟩], [], [⟨"info", "Kategori eklendi: a (id=1)"⟩],
               [⟨"info", "Kategori eklendi: a (id=1)"⟩], 2, 1⟩ : Store).stream,
        e ∈ ([] : List LogRow) ∨ e.level = "info" ∨ e.level = "warning"))
    ∧ ((∀ e ∈ (⟨[], [], [],
               [⟨"warning", "Silinmek istenen blok bulunamadı: id=5"⟩],
               1, 1⟩ : Store).logs, e ∈ ([] : List LogRow))
     ∧ (∀ e ∈ (⟨[], [], [],
               [⟨"warning", "Silinmek istenen blok bulunamadı: id=5"⟩],
               1, 1⟩ : Store).stream,
        e ∈ ([] : List LogRow) ∨ e.level = "info" ∨ e.level = "warning")) :=
  ⟨(log_levels_info_or_warning false (Op.addCategory "a")
      ⟨[], [], [], [], 1, 1⟩).1
      ⟨200, .obj [("id", JVal.n 1), ("name", JVal.s "a")]⟩
      ⟨[⟨1, "a"⟩], [], [⟨"info", "Kategori eklendi: a (id=1)"⟩],
       [⟨"info", "Kategori eklendi: a (id=1)"⟩], 2, 1⟩ rfl,
   (log_levels_info_or_warning true (Op.deleteBlock 5)
      ⟨[], [], [], [], 1, 1⟩).2
      ⟨[], [], [],
       [⟨"warning", "Silinmek istenen blok bulunamadı: id=5"⟩], 1, 1⟩ rfl⟩
